import Mathlib

/-!
A verification development for a Docker-Swarm secret-provisioning and
auto-rotation plugin backed by HashiCorp Vault.

The Go sources are shallowly embedded: Vault reads become an abstract
`Backend` function from paths to read results, the Docker Swarm cluster
becomes an explicit `DockerState` record threaded through the rotation
protocol, the tracked-secret map becomes an association list, and the
SHA-256 fingerprint (`fmt.Sprintf("%x", sha256.Sum256 v)` in the source)
becomes an abstract hash function `H : String → String`; collision
resistance is modelled, where a claim needs it, as an injectivity
hypothesis on `H`.  Secret values (`[]byte` in Go) are modelled as
`String`, since every value the driver handles is produced by
`fmt.Sprintf`.  Wall-clock time (`time.Now()` / `time.Now().Unix()`) is
passed in explicitly as a natural number `now`.
-/

namespace SwarmVault

/-- A Go `interface{}` value stored in a Vault secret's field map:
either a string, a nested map (the KV-v2 `"data"` envelope), or some
other value carried only through its `fmt.Sprintf("%v", ·)` rendering. -/
inductive VVal where
  | vstr (s : String)
  | vmap (m : List (String × VVal))
  | vother (rendering : String)

/-- `fmt.Sprintf("%v", value)`.  Nested maps are rendered opaquely; no
claim depends on the exact rendering of a map value. -/
def fmtV : VVal → String
  | .vstr s => s
  | .vmap _ => "map[]"
  | .vother r => r

/-- Lookup in a Go `map[string]interface{}`, modelled as an association
list read at the first matching key. -/
def lookupAssoc : List (String × VVal) → String → Option VVal
  | [], _ => none
  | (k, v) :: rest, key => if k = key then some v else lookupAssoc rest key

/-- Lookup in a Go `map[string]string` (labels). -/
def lookupStr : List (String × String) → String → Option String
  | [], _ => none
  | (k, v) :: rest, key => if k = key then some v else lookupStr rest key

/-- Set a key in a Go `map[string]string`, replacing an existing binding. -/
def setStr : List (String × String) → String → String → List (String × String)
  | [], key, val => [(key, val)]
  | (k, v) :: rest, key, val =>
      if k = key then (k, val) :: rest else (k, v) :: setStr rest key val

/-- The KV-v2 unwrap at the top of `extractSecretValue`,
`hasSecretChanged` and `rotateSecret`: when the record has a `"data"`
key, the data map is the nested map.  (When `"data"` holds a non-map
value the Go type assertion panics; the model leaves the record
unchanged there and no claim exercises that corner.) -/
def unwrapKV (secretData : List (String × VVal)) : List (String × VVal) :=
  match lookupAssoc secretData "data" with
  | some (VVal.vmap m) => m
  | _ => secretData

/-- A record is KV-well-formed when its `"data"` key, if present, holds
a map (so the Go type assertion cannot panic). -/
def kvWellFormed (secretData : List (String × VVal)) : Prop :=
  ∀ v, lookupAssoc secretData "data" = some v → ∃ m, v = VVal.vmap m

/-- The default field names tried by `extractSecretValue` when the
request carries no `vault_field` label, in source order. -/
def defaultFields : List String := ["value", "password", "secret", "data"]

/-- The loop `for _, field := range defaultFields { if value, ok := data[field] }`. -/
def tryDefaultFields (data : List (String × VVal)) : List String → Option VVal
  | [] => none
  | f :: rest =>
    match lookupAssoc data f with
    | some v => some v
    | none => tryDefaultFields data rest

/-- The loop `for _, value := range data { if strValue, ok := value.(string) }`:
the first string-typed value in the record (Go map iteration order is
modelled by the association-list order). -/
def firstStringValue : List (String × VVal) → Option String
  | [] => none
  | (_, VVal.vstr s) :: _ => some s
  | _ :: rest => firstStringValue rest

/-- `extractSecretValue` (rotation driver, part_004 lines 614-650):
unwrap the KV-v2 envelope, then use the explicit `vault_field` label,
else the default field names, else the first string value, else fail. -/
def extractSecretValue (secretData : List (String × VVal))
    (secretLabels : List (String × String)) : Except String String :=
  let data := unwrapKV secretData
  match lookupStr secretLabels "vault_field" with
  | some field =>
    match lookupAssoc data field with
    | some v => .ok (fmtV v)
    | none => .error ("field " ++ field ++ " not found in secret")
  | none =>
    match tryDefaultFields data defaultFields with
    | some v => .ok (fmtV v)
    | none =>
      match firstStringValue data with
      | some s => .ok s
      | none => .error "no suitable secret value found"

/-- The extraction priority exactly as the specification words it
(claim C3): explicit field label → that field's value or failure;
otherwise the first present of `value`, `password`, `secret`, `data`
in that order; otherwise the first string-typed value; otherwise
failure.  Stated with library combinators, to be compared against the
source-derived `extractSecretValue`. -/
def extractSpecC3 (secretData : List (String × VVal))
    (secretLabels : List (String × String)) : Except String String :=
  let data := unwrapKV secretData
  match lookupStr secretLabels "vault_field" with
  | some field =>
    match lookupAssoc data field with
    | some v => .ok (fmtV v)
    | none => .error ("field " ++ field ++ " not found in secret")
  | none =>
    match defaultFields.findSome? (lookupAssoc data) with
    | some v => .ok (fmtV v)
    | none =>
      match data.findSome? (fun kv => match kv.2 with
        | VVal.vstr s => some s
        | _ => none) with
      | some s => .ok s
      | none => .error "no suitable secret value found"

/-- `secrets.Request`: the plugin-transport request for one secret. -/
structure SecretRequest where
  secretName : String
  serviceName : String
  secretLabels : List (String × String)

/-- The configuration fields of `VaultConfig` that the embedded code
paths read (`MountPath` in `buildSecretPath`, `EnableRotation` in `Get`). -/
structure Config where
  mountPath : String
  enableRotation : Bool

/-- `SecretInfo`: one tracked-secret record. -/
structure SecretInfo where
  dockerSecretName : String
  vaultPath : String
  vaultField : String
  serviceNames : List String
  lastHash : String
  lastUpdated : Nat

/-- The `secretTracker` map (`map[string]*SecretInfo`), as an
association list keyed by Docker secret name. -/
abbrev Tracker := List (String × SecretInfo)

/-- Map read `d.secretTracker[name]`. -/
def lookupSI : Tracker → String → Option SecretInfo
  | [], _ => none
  | (k, v) :: rest, key => if k = key then some v else lookupSI rest key

/-- In-place update of the tracked record at a key (the Go code mutates
the record behind the map's pointer, so the binding itself is unchanged). -/
def updateSI : Tracker → String → SecretInfo → Tracker
  | [], _, _ => []
  | (k, v) :: rest, key, info =>
      if k = key then (k, info) :: rest else (k, v) :: updateSI rest key info

/-- The content fingerprint `fmt.Sprintf("%x", sha256.Sum256(value))`,
with SHA-256 abstracted as `H`. -/
def hashHex (H : String → String) (value : String) : String := H value

/-- `trackSecret` (part_004 lines 686-728): upsert the tracked record
for `req.SecretName`.  On a fresh name a record is created with the
requesting service as sole consumer; on a known name the service name is
appended only if absent and non-empty, and fingerprint and timestamp are
always refreshed. -/
def trackSecret (H : String → String) (now : Nat) (req : SecretRequest)
    (vaultPath : String) (value : String) (tr : Tracker) : Tracker :=
  let hash := hashHex H value
  let vaultField0 := (lookupStr req.secretLabels "vault_field").getD ""
  let vaultField := if vaultField0 = "" then "value" else vaultField0
  match lookupSI tr req.secretName with
  | some existing =>
      let serviceFound := existing.serviceNames.contains req.serviceName
      let newNames :=
        if ¬serviceFound ∧ req.serviceName ≠ "" then
          existing.serviceNames ++ [req.serviceName]
        else existing.serviceNames
      updateSI tr req.secretName
        { existing with serviceNames := newNames, lastHash := hash, lastUpdated := now }
  | none =>
      tr ++ [(req.secretName,
        { dockerSecretName := req.secretName
          vaultPath := vaultPath
          vaultField := vaultField
          serviceNames := [req.serviceName]
          lastHash := hash
          lastUpdated := now })]

/-- `buildSecretPath` (part_004 lines 589-612). -/
def buildSecretPath (cfg : Config) (req : SecretRequest) : String :=
  match lookupStr req.secretLabels "vault_path" with
  | some customPath =>
      if cfg.mountPath = "secret" then cfg.mountPath ++ "/data/" ++ customPath
      else cfg.mountPath ++ "/" ++ customPath
  | none =>
      if cfg.mountPath = "secret" then
        if req.serviceName ≠ "" then
          cfg.mountPath ++ "/data/" ++ req.serviceName ++ "/" ++ req.secretName
        else cfg.mountPath ++ "/data/" ++ req.secretName
      else
        if req.serviceName ≠ "" then
          cfg.mountPath ++ "/" ++ req.serviceName ++ "/" ++ req.secretName
        else cfg.mountPath ++ "/" ++ req.secretName

/-- `strings.ToLower`. -/
def strLower (s : String) : String := s.map Char.toLower

/-- `strings.Contains(hay, sub)` on character lists. -/
def containsSub (hay sub : List Char) : Bool :=
  match hay with
  | [] => sub.isEmpty
  | _ :: t => sub.isPrefixOf hay || containsSub t sub

/-- `shouldNotReuse` (part_004 lines 652-667): explicit `vault_reuse`
label wins; otherwise names containing rotation-sensitive markers are
non-reusable. -/
def shouldNotReuse (req : SecretRequest) : Bool :=
  match lookupStr req.secretLabels "vault_reuse" with
  | some reuse => strLower reuse == "false"
  | none =>
      containsSub req.secretName.toList "cert".toList ||
      containsSub req.secretName.toList "token".toList ||
      containsSub req.secretName.toList "dynamic".toList

/-- The result of one Vault logical read at a path:
a transport error, a nil secret, or a field map. -/
inductive ReadResult where
  | err (msg : String)
  | notFound
  | ok (data : List (String × VVal))

/-- The Vault backend, as the function the driver observes:
path ↦ read result. -/
abbrev Backend := String → ReadResult

/-- `secrets.Response`: the zero value of `Value` (`[]byte` nil) is the
empty string and the zero value of `Err` is the empty string; the
orchestrator treats `Err ≠ ""` as failure. -/
structure Response where
  value : String
  doNotReuse : Bool
  err : String

/-- `Get` (rotation driver, part_004 lines 528-587): validate the name,
build the path, read from Vault, extract the value, track the secret
when rotation is enabled, and answer with the value and reuse flag.
Returns the response together with the tracker state after the call. -/
def Get (H : String → String) (backend : Backend) (cfg : Config) (now : Nat)
    (tr : Tracker) (req : SecretRequest) : Response × Tracker :=
  if req.secretName = "" then
    ({ value := "", doNotReuse := false, err := "secret name is required" }, tr)
  else
    let secretPath := buildSecretPath cfg req
    match backend secretPath with
    | .err e =>
        ({ value := "", doNotReuse := false,
           err := "failed to read secret from vault: " ++ e }, tr)
    | .notFound =>
        ({ value := "", doNotReuse := false,
           err := "secret not found at path: " ++ secretPath ++
                  " (verify the secret exists in Vault)" }, tr)
    | .ok secretData =>
        match extractSecretValue secretData req.secretLabels with
        | .error e =>
            ({ value := "", doNotReuse := false,
               err := "failed to extract secret value: " ++ e }, tr)
        | .ok value =>
            let tr' := if cfg.enableRotation then
                         trackSecret H now req secretPath value tr
                       else tr
            ({ value := value, doNotReuse := shouldNotReuse req, err := "" }, tr')

/-- `hasSecretChanged` (part_004 lines 775-811): re-read the tracked
path; a transport error, a nil secret, or an absent tracked field all
report "unchanged"; otherwise compare the current hash with `LastHash`. -/
def hasSecretChanged (H : String → String) (backend : Backend)
    (info : SecretInfo) : Bool :=
  match backend info.vaultPath with
  | .err _ => false
  | .notFound => false
  | .ok secretData =>
      let data := unwrapKV secretData
      match lookupAssoc data info.vaultField with
      | some v => hashHex H (fmtV v) != info.lastHash
      | none => false

/-- A Docker Swarm secret object (`swarm.Secret`: ID plus spec name,
labels and data). -/
structure DockerSecret where
  id : String
  name : String
  labels : List (String × String)
  data : String

/-- A `swarm.SecretReference` inside a service spec. -/
structure SecretRef where
  file : String
  secretID : String
  secretName : String

/-- A Docker Swarm service (`swarm.Service`: ID, version token, and the
spec fields the rotation code touches). -/
structure SwarmService where
  id : String
  name : String
  version : Nat
  labels : List (String × String)
  secretRefs : List SecretRef

/-- The cluster state the rotation protocol mutates through the Docker
client: the secret objects and the services. -/
structure DockerState where
  secrets : List DockerSecret
  services : List SwarmService

/-- Failure behaviour of the Docker API during one rotation attempt:
which calls fail.  `freshId` is the ID the cluster assigns to the secret
created by `SecretCreate`. -/
structure DockerEnv where
  listSecretsFails : Bool
  createFails : Bool
  listServicesFails : Bool
  serviceUpdateFails : String → Bool
  removeFails : String → Bool
  freshId : String

/-- `ServiceUpdate` applied to the cluster: replace the service with the
given ID by the new definition (Docker bumps the version). -/
def replaceService (ds : DockerState) (svcId : String) (svc' : SwarmService) :
    DockerState :=
  { ds with services := ds.services.map (fun s => if s.id = svcId then svc' else s) }

/-- The rewritten reference for a service that consumed the old secret
name: file target preserved, ID and name repointed (the source uses the
new name as the ID). -/
def rewriteRefs (oldName newName : String) (refs : List SecretRef) :
    List SecretRef :=
  refs.map (fun r =>
    if r.secretName = oldName then
      { file := r.file, secretID := newName, secretName := newName }
    else r)

/-- The updated service definition sent by `ServiceUpdate` during
rotation: refs rewritten, the `vault.secret.rotated` label stamped with
the current Unix time, version bumped by the cluster. -/
def rotatedService (now : Nat) (oldName newName : String) (svc : SwarmService) :
    SwarmService :=
  { svc with
      secretRefs := rewriteRefs oldName newName svc.secretRefs
      labels := setStr svc.labels "vault.secret.rotated" (toString now)
      version := svc.version + 1 }

/-- The effect of `updateServicesSecretReference`'s loop on one listed
service: unchanged when it holds no reference to the old name, else the
rotated definition. -/
def rotateListed (now : Nat) (oldName newName : String) (svc : SwarmService) :
    SwarmService :=
  if svc.secretRefs.any (fun r => r.secretName = oldName) then
    rotatedService now oldName newName svc
  else svc

/-- The service-update loop of `updateServicesSecretReference`
(part_004 lines 932-974): iterate the listed services in order; for each
service referencing the old name, send the rotated definition; on the
first `ServiceUpdate` failure return the error, keeping the cluster
state mutated so far (earlier updates persist). -/
def updateLoop (env : DockerEnv) (now : Nat) (oldName newName : String) :
    List SwarmService → DockerState → Option String × DockerState
  | [], ds => (none, ds)
  | svc :: rest, ds =>
      if svc.secretRefs.any (fun r => r.secretName = oldName) then
        if env.serviceUpdateFails svc.id then
          (some ("failed to update service " ++ svc.name), ds)
        else
          updateLoop env now oldName newName rest
            (replaceService ds svc.id (rotatedService now oldName newName svc))
      else
        updateLoop env now oldName newName rest ds

/-- `updateServicesSecretReference` (part_004 lines 920-981): list all
services, then repoint every reference to the old secret name at the
new one. -/
def updateServicesSecretReference (env : DockerEnv) (now : Nat)
    (ds : DockerState) (oldName newName : String) :
    Option String × DockerState :=
  if env.listServicesFails then (some "failed to list services", ds)
  else updateLoop env now oldName newName ds.services ds

/-- `SecretRemove` applied to the cluster (removal is by ID); a failed
removal leaves the state unchanged. -/
def removeSecret (env : DockerEnv) (ds : DockerState) (secretId : String) :
    DockerState :=
  if env.removeFails secretId then ds
  else { ds with secrets := ds.secrets.filter (fun s => s.id ≠ secretId) }

/-- `updateDockerSecret` (part_004 lines 861-917): find the existing
secret object by name, create a versioned copy
`<name>-<unix-timestamp>` carrying the same labels and the new value,
repoint every consuming service, and only then remove the old object.
If the service-update step fails, the freshly created object is removed
as compensation and the error is surfaced; a failure to remove the old
object after successful propagation is logged and ignored. -/
def updateDockerSecret (env : DockerEnv) (now : Nat) (ds : DockerState)
    (secretName : String) (newValue : String) : Option String × DockerState :=
  if env.listSecretsFails then (some "failed to list secrets", ds)
  else
    match ds.secrets.find? (fun s => s.name = secretName) with
    | none => (some ("secret " ++ secretName ++ " not found"), ds)
    | some existingSecret =>
        let newSecretName := secretName ++ "-" ++ toString now
        if env.createFails then (some "failed to create new secret version", ds)
        else
          let newSecret : DockerSecret :=
            { id := env.freshId, name := newSecretName,
              labels := existingSecret.labels, data := newValue }
          let ds1 : DockerState := { ds with secrets := ds.secrets ++ [newSecret] }
          match updateServicesSecretReference env now ds1 secretName newSecretName with
          | (some e, ds2) =>
              (some ("failed to update services to use new secret: " ++ e),
               removeSecret env ds2 env.freshId)
          | (none, ds2) =>
              (none, removeSecret env ds2 existingSecret.id)

/-- The tracker mutation at the end of a successful `rotateSecret`
(part_004 lines 850-854): refresh fingerprint and timestamp of the
rotated record, leaving everything else (in particular the consumer
set) untouched. -/
def updateTrackerHash (H : String → String) (now : Nat) (tr : Tracker)
    (name : String) (newValue : String) : Tracker :=
  match lookupSI tr name with
  | some cur =>
      updateSI tr name
        { cur with lastHash := hashHex H newValue, lastUpdated := now }
  | none => tr

/-- `rotateSecret` (part_004 lines 814-858): re-read the tracked
path/field from Vault, run `updateDockerSecret`, and on success refresh
the tracker record's fingerprint and timestamp.  Every failure leaves
the tracker untouched. -/
def rotateSecret (H : String → String) (backend : Backend) (env : DockerEnv)
    (now : Nat) (ds : DockerState) (tr : Tracker) (info : SecretInfo) :
    Option String × DockerState × Tracker :=
  match backend info.vaultPath with
  | .err e =>
      (some ("failed to read updated secret from vault: " ++ e), ds, tr)
  | .notFound =>
      (some ("secret not found at path: " ++ info.vaultPath), ds, tr)
  | .ok secretData =>
      let data := unwrapKV secretData
      match lookupAssoc data info.vaultField with
      | none =>
          (some ("field " ++ info.vaultField ++ " not found in secret"), ds, tr)
      | some v =>
          let newValue := fmtV v
          match updateDockerSecret env now ds info.dockerSecretName newValue with
          | (some e, ds') =>
              (some ("failed to update docker secret: " ++ e), ds', tr)
          | (none, ds') =>
              (none, ds', updateTrackerHash H now tr info.dockerSecretName newValue)

/-- One tracked entry of a scheduler cycle (the body of the loop in
`checkForSecretChanges`, part_004 lines 764-771): when the change check
reports a change, rotate; a rotation failure is logged and the cycle
continues with the state the failed rotation left behind. -/
def processEntry (H : String → String) (backend : Backend) (env : DockerEnv)
    (now : Nat) (acc : DockerState × Tracker) (info : SecretInfo) :
    DockerState × Tracker :=
  if hasSecretChanged H backend info then
    let r := rotateSecret H backend env now acc.1 acc.2 info
    (r.2.1, r.2.2)
  else acc

/-- The iteration of one scheduler cycle over the snapshot entries. -/
def runCycleEntries (H : String → String) (backend : Backend) (env : DockerEnv)
    (now : Nat) (entries : List (String × SecretInfo))
    (acc : DockerState × Tracker) : DockerState × Tracker :=
  entries.foldl (fun a kv => processEntry H backend env now a kv.2) acc

/-- `checkForSecretChanges` (part_004 lines 749-772): snapshot the
tracked table under the read lock and process every entry. -/
def checkForSecretChanges (H : String → String) (backend : Backend)
    (env : DockerEnv) (now : Nat) (ds : DockerState) (tr : Tracker) :
    DockerState × Tracker :=
  runCycleEntries H backend env now tr (ds, tr)

/-- The number of consumer service names recorded for a tracked name. -/
def consumerCount (tr : Tracker) (name : String) : Nat :=
  match lookupSI tr name with
  | some info => info.serviceNames.length
  | none => 0

/-- Tracker evolution that never loses a consumer: every tracked record
survives and keeps all its service names. -/
def consumersPreserved (tr tr' : Tracker) : Prop :=
  ∀ name info, lookupSI tr name = some info →
    ∃ info', lookupSI tr' name = some info' ∧
      ∀ s ∈ info.serviceNames, s ∈ info'.serviceNames

/-! ### Helper lemmas -/

theorem lookupSI_append_of_none {tr : Tracker} {k : String}
    (h : lookupSI tr k = none) (l : Tracker) :
    lookupSI (tr ++ l) k = lookupSI l k := by
  induction tr with
  | nil => rfl
  | cons kv rest ih =>
      obtain ⟨k', v⟩ := kv
      by_cases hk : k' = k
      · simp [lookupSI, hk] at h
      · simp only [lookupSI, List.cons_append, if_neg hk] at h ⊢
        exact ih h

theorem lookupSI_updateSI_self {tr : Tracker} {k : String} {i : SecretInfo}
    (h : lookupSI tr k = some i) (info : SecretInfo) :
    lookupSI (updateSI tr k info) k = some info := by
  induction tr with
  | nil => simp [lookupSI] at h
  | cons kv rest ih =>
      obtain ⟨k', v⟩ := kv
      by_cases hk : k' = k
      · simp [updateSI, lookupSI, hk]
      · simp only [lookupSI, if_neg hk] at h
        simp only [updateSI, if_neg hk, lookupSI, if_neg hk]
        exact ih h

theorem lookupSI_updateSI_ne {tr : Tracker} {k k' : String} (hne : k' ≠ k)
    (info : SecretInfo) :
    lookupSI (updateSI tr k info) k' = lookupSI tr k' := by
  induction tr with
  | nil => rfl
  | cons kv rest ih =>
      obtain ⟨k0, v⟩ := kv
      by_cases hk : k0 = k
      · have hne' : ¬k0 = k' := fun h => hne (h.symm.trans hk)
        simp only [updateSI, if_pos hk, lookupSI, if_neg hne']
      · simp only [updateSI, if_neg hk, lookupSI]
        by_cases hk' : k0 = k'
        · simp [hk']
        · simp [hk', ih]

/-- `tryDefaultFields` is the first-hit search the specification
describes over the default field list. -/
theorem tryDefaultFields_eq_findSome (d : List (String × VVal)) :
    tryDefaultFields d defaultFields = defaultFields.findSome? (lookupAssoc d) := by
  simp only [defaultFields, tryDefaultFields, List.findSome?]
  cases lookupAssoc d "value" <;> simp [tryDefaultFields] <;>
    cases lookupAssoc d "password" <;> simp [tryDefaultFields] <;>
    cases lookupAssoc d "secret" <;> simp [tryDefaultFields] <;>
    cases lookupAssoc d "data" <;> simp [tryDefaultFields]

/-- `firstStringValue` is the first-hit search over the record's values. -/
theorem firstStringValue_eq_findSome (d : List (String × VVal)) :
    firstStringValue d = d.findSome? (fun kv => match kv.2 with
      | VVal.vstr s => some s
      | _ => none) := by
  induction d with
  | nil => rfl
  | cons kv rest ih =>
      obtain ⟨k, v⟩ := kv
      cases v <;> simp [firstStringValue, List.findSome?, ih]

/-! ### Claims -/

/-- **C3.** For every fetched secret record and request, value
extraction follows exactly the declared priority: an explicit field
label returns that field's value or fails if the field is absent;
otherwise the first present of the default fields `value`, `password`,
`secret`, `data` in that order; otherwise the first string-typed value
in the record; otherwise failure.  Stated as: the source's
`extractSecretValue` coincides with `extractSpecC3`, a restatement of
the specification's priority in library combinators, together with the
specification's two concrete examples. -/
theorem extractSecretValue_follows_spec_priority :
    (∀ (secretData : List (String × VVal)) (secretLabels : List (String × String)),
      extractSecretValue secretData secretLabels =
        extractSpecC3 secretData secretLabels) ∧
    extractSecretValue [("password", .vstr "p1"), ("value", .vstr "v1")] []
      = .ok "v1" ∧
    extractSecretValue [("password", .vstr "p1"), ("value", .vstr "v1")]
      [("vault_field", "password")] = .ok "p1" := by
  refine ⟨fun sd lbl => ?_, rfl, rfl⟩
  unfold extractSecretValue extractSpecC3
  cases lookupStr lbl "vault_field" with
  | some f => rfl
  | none =>
      simp only [tryDefaultFields_eq_findSome, firstStringValue_eq_findSome]

/-- **C5.** Fingerprint equality is exactly byte equality under the
collision-resistance (injectivity) assumption on the hash: two values
fingerprint identically iff they are identical, re-fetching an
unchanged value is never reported as a change, and any change of the
value at the tracked field is reported. -/
theorem fingerprint_eq_iff_bytes_eq (H : String → String)
    (hInj : Function.Injective H) :
    (∀ a b : String, hashHex H a = hashHex H b ↔ a = b) ∧
    (∀ (backend : Backend) (info : SecretInfo) (sd : List (String × VVal))
        (v : VVal) (old : String),
      backend info.vaultPath = .ok sd →
      lookupAssoc (unwrapKV sd) info.vaultField = some v →
      info.lastHash = hashHex H old →
      (hasSecretChanged H backend info = true ↔ fmtV v ≠ old)) := by
  constructor
  · intro a b
    exact ⟨fun h => hInj h, fun h => congrArg H h⟩
  · intro backend info sd v old hbk hfield hhash
    unfold hasSecretChanged
    rw [hbk]
    simp only [hfield, hhash]
    constructor
    · intro h hcontra
      rw [bne_iff_ne] at h
      exact h (congrArg H hcontra)
    · intro h
      rw [bne_iff_ne]
      intro hcontra
      exact h (hInj hcontra)

/-- Witness for C5 at `H = id`: the empty value re-fetched is
unchanged, and a value changed from `"old"` to `"new"` is detected. -/
theorem fingerprint_eq_iff_bytes_eq_witness :
    hasSecretChanged id
      (fun _ => ReadResult.ok [("value", .vstr "new")])
      { dockerSecretName := "db-pass", vaultPath := "p", vaultField := "value",
        serviceNames := ["svc-a"], lastHash := "old", lastUpdated := 0 } = true ∧
    (hashHex id "" = hashHex id "" ↔ ("" : String) = "") := by
  constructor
  · exact ((fingerprint_eq_iff_bytes_eq id fun _ _ h => h).2
      (fun _ => ReadResult.ok [("value", .vstr "new")])
      { dockerSecretName := "db-pass", vaultPath := "p", vaultField := "value",
        serviceNames := ["svc-a"], lastHash := "old", lastUpdated := 0 }
      [("value", .vstr "new")] (.vstr "new") "old" rfl rfl rfl).mpr (by decide)
  · exact (fingerprint_eq_iff_bytes_eq id fun _ _ h => h).1 "" ""

/-- **C6.** `trackSecret` is idempotent for a fixed (name, service)
pair: a second call with identical inputs leaves the consumer-set size
of the tracked record unchanged. -/
theorem trackSecret_idempotent_consumer_count (H : String → String)
    (now₁ now₂ : Nat) (req : SecretRequest) (vaultPath value : String)
    (tr : Tracker) :
    consumerCount
      (trackSecret H now₂ req vaultPath value
        (trackSecret H now₁ req vaultPath value tr))
      req.secretName
    = consumerCount (trackSecret H now₁ req vaultPath value tr)
        req.secretName := by
  have key : ∀ (tr₁ : Tracker) (info₁ : SecretInfo),
      lookupSI tr₁ req.secretName = some info₁ →
      (req.serviceName ∈ info₁.serviceNames ∨ req.serviceName = "") →
      consumerCount (trackSecret H now₂ req vaultPath value tr₁) req.secretName
        = info₁.serviceNames.length := by
    intro tr₁ info₁ hlk hmem
    unfold trackSecret consumerCount
    rw [hlk]
    simp only
    rw [lookupSI_updateSI_self hlk]
    rcases hmem with hmem | hmem
    · simp [hmem]
    · simp [hmem]
  set tr₁ := trackSecret H now₁ req vaultPath value tr with htr₁
  rcases hfirst : lookupSI tr req.secretName with _ | ⟨existing⟩
  · -- first call created the record with the requesting service
    have hlk : lookupSI tr₁ req.secretName =
        some { dockerSecretName := req.secretName, vaultPath := vaultPath,
               vaultField := (if (lookupStr req.secretLabels "vault_field").getD "" = ""
                 then "value" else (lookupStr req.secretLabels "vault_field").getD ""),
               serviceNames := [req.serviceName],
               lastHash := hashHex H value, lastUpdated := now₁ } := by
      rw [htr₁]
      unfold trackSecret
      rw [hfirst]
      simp only
      rw [lookupSI_append_of_none hfirst]
      simp [lookupSI]
    rw [key tr₁ _ hlk (Or.inl (by simp))]
    unfold consumerCount
    rw [hlk]
  · -- first call refreshed an existing record
    have hlk : lookupSI tr₁ req.secretName =
        some { existing with
          serviceNames :=
            (if ¬existing.serviceNames.contains req.serviceName = true ∧
                req.serviceName ≠ "" then
              existing.serviceNames ++ [req.serviceName]
            else existing.serviceNames),
          lastHash := hashHex H value, lastUpdated := now₁ } := by
      rw [htr₁]
      unfold trackSecret
      rw [hfirst]
      simp only
      exact lookupSI_updateSI_self hfirst _
    by_cases hsvc : req.serviceName = ""
    · rw [key tr₁ _ hlk (Or.inr hsvc)]
      unfold consumerCount
      rw [hlk]
    · have hcontains : req.serviceName ∈
          (if ¬existing.serviceNames.contains req.serviceName = true ∧
              req.serviceName ≠ "" then
            existing.serviceNames ++ [req.serviceName]
          else existing.serviceNames) := by
        by_cases hc : req.serviceName ∈ existing.serviceNames <;>
          simp [hc, hsvc]
      rw [key tr₁ _ hlk (Or.inl hcontains)]
      unfold consumerCount
      rw [hlk]

/-- A nonempty string stays nonempty under right concatenation. -/
theorem append_ne_empty_of_left {s : String} (t : String)
    (h : s.length ≠ 0) : s ++ t ≠ "" := by
  intro he
  have hl : (s ++ t).length = ("" : String).length := congrArg String.length he
  rw [String.length_append] at hl
  have h0 : ("" : String).length = 0 := rfl
  omega

/-- Characterization of the record `trackSecret` leaves at the
requested name: it always exists, its fingerprint is the hash of the
delivered value and its timestamp the call time; a non-empty requesting
service is a member of its consumer set; every service of a
pre-existing record survives; and on first sight the record is exactly
the freshly created one. -/
theorem trackSecret_lookup_self (H : String → String) (now : Nat)
    (req : SecretRequest) (vaultPath value : String) (tr : Tracker) :
    ∃ info, lookupSI (trackSecret H now req vaultPath value tr)
        req.secretName = some info ∧
      info.lastHash = hashHex H value ∧
      info.lastUpdated = now ∧
      (req.serviceName ≠ "" → req.serviceName ∈ info.serviceNames) ∧
      (∀ ex, lookupSI tr req.secretName = some ex →
        (∀ s ∈ ex.serviceNames, s ∈ info.serviceNames) ∧
          info.vaultField = ex.vaultField ∧
          info.dockerSecretName = ex.dockerSecretName ∧
          info.vaultPath = ex.vaultPath) ∧
      (lookupSI tr req.secretName = none →
        info = { dockerSecretName := req.secretName, vaultPath := vaultPath,
                 vaultField :=
                   (if (lookupStr req.secretLabels "vault_field").getD "" = ""
                    then "value"
                    else (lookupStr req.secretLabels "vault_field").getD ""),
                 serviceNames := [req.serviceName],
                 lastHash := hashHex H value, lastUpdated := now }) := by
  rcases hfirst : lookupSI tr req.secretName with _ | ⟨existing⟩
  · have hlk : lookupSI (trackSecret H now req vaultPath value tr)
        req.secretName
        = some { dockerSecretName := req.secretName, vaultPath := vaultPath,
                 vaultField :=
                   (if (lookupStr req.secretLabels "vault_field").getD "" = ""
                    then "value"
                    else (lookupStr req.secretLabels "vault_field").getD ""),
                 serviceNames := [req.serviceName],
                 lastHash := hashHex H value, lastUpdated := now } := by
      unfold trackSecret
      rw [hfirst]
      simp only
      rw [lookupSI_append_of_none hfirst]
      simp [lookupSI]
    exact ⟨_, hlk, rfl, rfl, fun _ => by simp,
      fun ex hex => absurd hex (by simp), fun _ => rfl⟩
  · have hlk : lookupSI (trackSecret H now req vaultPath value tr)
        req.secretName
        = some { existing with
            serviceNames :=
              (if ¬existing.serviceNames.contains req.serviceName = true
                  ∧ req.serviceName ≠ "" then
                existing.serviceNames ++ [req.serviceName]
              else existing.serviceNames),
            lastHash := hashHex H value, lastUpdated := now } := by
      unfold trackSecret
      rw [hfirst]
      simp only
      exact lookupSI_updateSI_self hfirst _
    refine ⟨_, hlk, rfl, rfl, ?_, ?_, ?_⟩
    · intro hsvc
      by_cases hc : req.serviceName ∈ existing.serviceNames <;>
        simp [hc, hsvc]
    · intro ex hex
      cases hex
      refine ⟨?_, rfl, rfl, rfl⟩
      intro s hs
      by_cases hc : req.serviceName ∈ existing.serviceNames <;>
        by_cases hq : req.serviceName = "" <;> simp [hc, hq, hs]
    · intro hnone
      exact absurd hnone (by simp)

/-- **C10.** When a request carries no explicit `vault_field` label,
the tracker records the literal field name `"value"` in the created
record — independently of which default or fallback field the
extraction actually used — and a change check reads exactly the
recorded field of the re-fetched record, treating its absence as no
change. -/
theorem tracker_records_default_field_value
    (H : String → String) (now : Nat) (req : SecretRequest)
    (vaultPath value : String) (tr : Tracker) (backend : Backend)
    (info : SecretInfo) (sd : List (String × VVal)) :
    (lookupStr req.secretLabels "vault_field" = none →
      lookupSI tr req.secretName = none →
      ∃ i, lookupSI (trackSecret H now req vaultPath value tr)
          req.secretName = some i ∧ i.vaultField = "value") ∧
    (backend info.vaultPath = .ok sd →
      hasSecretChanged H backend info =
        (match lookupAssoc (unwrapKV sd) info.vaultField with
         | some v => hashHex H (fmtV v) != info.lastHash
         | none => false)) ∧
    (backend info.vaultPath = .ok sd →
      lookupAssoc (unwrapKV sd) info.vaultField = none →
      hasSecretChanged H backend info = false) := by
  refine ⟨?_, ?_, ?_⟩
  · intro hlbl hnone
    obtain ⟨i, hlk, _, _, _, _, hcreate⟩ :=
      trackSecret_lookup_self H now req vaultPath value tr
    refine ⟨i, hlk, ?_⟩
    rw [hcreate hnone, hlbl]
    rfl
  · intro hbk
    unfold hasSecretChanged
    rw [hbk]
  · intro hbk hmiss
    unfold hasSecretChanged
    rw [hbk]
    simp only [hmiss]

/-- Witness for C10: a label-free request creates a record whose
tracked field is `"value"`, and a change check against a record lacking
that field reports no change. -/
theorem tracker_records_default_field_value_witness :
    (∃ i, lookupSI (trackSecret id 7
          { secretName := "db-pass", serviceName := "svc-a", secretLabels := [] }
          "secret/data/svc-a/db-pass" "v1" []) "db-pass" = some i ∧
        i.vaultField = "value") ∧
    hasSecretChanged id (fun _ => ReadResult.ok [("other", .vstr "x")])
      { dockerSecretName := "db-pass", vaultPath := "p", vaultField := "value",
        serviceNames := ["svc-a"], lastHash := "h", lastUpdated := 0 } = false := by
  constructor
  · exact (tracker_records_default_field_value id 7
      { secretName := "db-pass", serviceName := "svc-a", secretLabels := [] }
      "secret/data/svc-a/db-pass" "v1" []
      (fun _ => ReadResult.ok [])
      { dockerSecretName := "db-pass", vaultPath := "p", vaultField := "value",
        serviceNames := ["svc-a"], lastHash := "h", lastUpdated := 0 }
      []).1 rfl rfl
  · exact (tracker_records_default_field_value id 7
      { secretName := "db-pass", serviceName := "svc-a", secretLabels := [] }
      "secret/data/svc-a/db-pass" "v1" []
      (fun _ => ReadResult.ok [("other", .vstr "x")])
      { dockerSecretName := "db-pass", vaultPath := "p", vaultField := "value",
        serviceNames := ["svc-a"], lastHash := "h", lastUpdated := 0 }
      [("other", .vstr "x")]).2.2 rfl rfl

/-- **C9.** `Get` answers every request with exactly one of a value or
an error: an empty secret name, a failed backend read, a missing path,
and a failed field extraction each yield a response with a non-empty
error string and an empty value, while a success yields the extracted
value, the reuse flag, and an empty error string. -/
theorem get_value_xor_error (H : String → String) (backend : Backend)
    (cfg : Config) (now : Nat) (tr : Tracker) (req : SecretRequest) :
    ((Get H backend cfg now tr req).1.err = "" ∨
      (Get H backend cfg now tr req).1.value = "") ∧
    (req.secretName = "" → (Get H backend cfg now tr req).1.err ≠ "" ∧
      (Get H backend cfg now tr req).1.value = "") ∧
    (∀ e, req.secretName ≠ "" →
      backend (buildSecretPath cfg req) = .err e →
      (Get H backend cfg now tr req).1.err ≠ "" ∧
        (Get H backend cfg now tr req).1.value = "") ∧
    (req.secretName ≠ "" →
      backend (buildSecretPath cfg req) = .notFound →
      (Get H backend cfg now tr req).1.err ≠ "" ∧
        (Get H backend cfg now tr req).1.value = "") ∧
    (∀ sd e, req.secretName ≠ "" →
      backend (buildSecretPath cfg req) = .ok sd →
      extractSecretValue sd req.secretLabels = .error e →
      (Get H backend cfg now tr req).1.err ≠ "" ∧
        (Get H backend cfg now tr req).1.value = "") ∧
    (∀ sd v, req.secretName ≠ "" →
      backend (buildSecretPath cfg req) = .ok sd →
      extractSecretValue sd req.secretLabels = .ok v →
      (Get H backend cfg now tr req).1.err = "" ∧
        (Get H backend cfg now tr req).1.value = v) := by
  refine ⟨?_, ?_, ?_, ?_, ?_, ?_⟩
  · unfold Get
    by_cases hname : req.secretName = ""
    · simp [hname]
    · simp only [if_neg hname]
      cases hbk : backend (buildSecretPath cfg req) with
      | err e => simp [hbk]
      | notFound => simp [hbk]
      | ok sd =>
          cases hex : extractSecretValue sd req.secretLabels with
          | error e => simp [hbk, hex]
          | ok v => simp [hbk, hex]
  · intro hname
    unfold Get
    rw [if_pos hname]
    refine ⟨?_, rfl⟩
    show ("secret name is required" : String) ≠ ""
    decide
  · intro e hname hbk
    unfold Get
    simp only [if_neg hname, hbk]
    exact ⟨append_ne_empty_of_left e (by decide), trivial⟩
  · intro hname hbk
    unfold Get
    simp only [if_neg hname, hbk]
    refine ⟨append_ne_empty_of_left _ ?_, trivial⟩
    rw [String.length_append]
    have h26 : ("secret not found at path: " : String).length = 26 := rfl
    omega
  · intro sd e hname hbk hex
    unfold Get
    simp only [if_neg hname, hbk, hex]
    exact ⟨append_ne_empty_of_left e (by decide), trivial⟩
  · intro sd v hname hbk hex
    unfold Get
    simp only [if_neg hname, hbk, hex]
    exact ⟨trivial, trivial⟩

/-- Witness for C9: an empty-name request errors with no value, and a
successful read of `{"value": "v1"}` answers `"v1"` with no error. -/
theorem get_value_xor_error_witness :
    ((Get id (fun _ => ReadResult.ok [("value", .vstr "v1")])
        { mountPath := "secret", enableRotation := true } 0 []
        { secretName := "", serviceName := "s", secretLabels := [] }).1.err ≠ "") ∧
    ((Get id (fun _ => ReadResult.ok [("value", .vstr "v1")])
        { mountPath := "secret", enableRotation := true } 0 []
        { secretName := "db-pass", serviceName := "s", secretLabels := [] }).1.err = "" ∧
      (Get id (fun _ => ReadResult.ok [("value", .vstr "v1")])
        { mountPath := "secret", enableRotation := true } 0 []
        { secretName := "db-pass", serviceName := "s", secretLabels := [] }).1.value = "v1") := by
  constructor
  · exact ((get_value_xor_error id (fun _ => ReadResult.ok [("value", .vstr "v1")])
      { mountPath := "secret", enableRotation := true } 0 []
      { secretName := "", serviceName := "s", secretLabels := [] }).2.1 rfl).1
  · exact (get_value_xor_error id (fun _ => ReadResult.ok [("value", .vstr "v1")])
      { mountPath := "secret", enableRotation := true } 0 []
      { secretName := "db-pass", serviceName := "s", secretLabels := [] }).2.2.2.2.2
      [("value", .vstr "v1")] "v1" (by decide) rfl rfl

/-- **C4 (counterexample).** A successful `Get` does *not* always
register a tracker entry: with rotation disabled the driver skips
`trackSecret` entirely, so this concrete request succeeds (empty error
string) while the tracker stays empty. -/
theorem get_success_without_tracking_counterexample :
    (Get id (fun _ => ReadResult.ok [("value", .vstr "v1")])
        { mountPath := "secret", enableRotation := false } 0 []
        { secretName := "db-pass", serviceName := "svc-a",
          secretLabels := [] }).1.err = "" ∧
    (Get id (fun _ => ReadResult.ok [("value", .vstr "v1")])
        { mountPath := "secret", enableRotation := false } 0 []
        { secretName := "db-pass", serviceName := "svc-a",
          secretLabels := [] }).2 = [] := ⟨rfl, rfl⟩

/-- **C4 (amended).** When rotation is enabled, every `Get` that
successfully returns a value registers or refreshes the tracker record
for the requested name: after the call the record exists with the
fingerprint of the delivered value and the call timestamp, the
requesting service (when non-empty) is in its consumer set, and the
consumers of a pre-existing record are all retained. -/
theorem get_success_registers_tracker (H : String → String)
    (backend : Backend) (cfg : Config) (now : Nat) (tr : Tracker)
    (req : SecretRequest) (sd : List (String × VVal)) (v : String)
    (hrot : cfg.enableRotation = true) (hname : req.secretName ≠ "")
    (hbk : backend (buildSecretPath cfg req) = .ok sd)
    (hex : extractSecretValue sd req.secretLabels = .ok v) :
    ∃ info, lookupSI (Get H backend cfg now tr req).2 req.secretName
        = some info ∧
      info.lastHash = hashHex H v ∧ info.lastUpdated = now ∧
      (req.serviceName ≠ "" → req.serviceName ∈ info.serviceNames) ∧
      (∀ ex, lookupSI tr req.secretName = some ex →
        ∀ s ∈ ex.serviceNames, s ∈ info.serviceNames) := by
  obtain ⟨info, hlk, hh, ht, hsvc, hex', _⟩ :=
    trackSecret_lookup_self H now req (buildSecretPath cfg req) v tr
  refine ⟨info, ?_, hh, ht, hsvc, fun ex he => (hex' ex he).1⟩
  unfold Get
  simp only [if_neg hname, hbk, hex, hrot]
  exact hlk

/-- Witness for the amended C4: a concrete successful `Get` with
rotation enabled leaves a record fingerprinted with the delivered
value, stamped with the call time, listing the requesting service. -/
theorem get_success_registers_tracker_witness :
    ∃ info, lookupSI (Get id (fun _ => ReadResult.ok [("value", .vstr "v1")])
        { mountPath := "secret", enableRotation := true } 9 []
        { secretName := "db-pass", serviceName := "svc-a",
          secretLabels := [] }).2 "db-pass" = some info ∧
      info.lastHash = hashHex id "v1" ∧ info.lastUpdated = 9 ∧
      ("svc-a" : String) ≠ "" ∧ "svc-a" ∈ info.serviceNames := by
  obtain ⟨info, hlk, hh, ht, hsvc, _⟩ :=
    get_success_registers_tracker id
      (fun _ => ReadResult.ok [("value", .vstr "v1")])
      { mountPath := "secret", enableRotation := true } 9 []
      { secretName := "db-pass", serviceName := "svc-a", secretLabels := [] }
      [("value", .vstr "v1")] "v1" rfl (by decide) rfl rfl
  exact ⟨info, hlk, hh, ht, by decide, hsvc (by decide)⟩

/-! ### Rotation-protocol lemmas -/

theorem lookupSI_append_left {tr : Tracker} {k : String} {i : SecretInfo}
    (h : lookupSI tr k = some i) (l : Tracker) :
    lookupSI (tr ++ l) k = some i := by
  induction tr with
  | nil => simp [lookupSI] at h
  | cons kv rest ih =>
      obtain ⟨k', v⟩ := kv
      by_cases hk : k' = k
      · simp only [lookupSI, if_pos hk] at h
        simp only [List.cons_append, lookupSI, if_pos hk]
        exact h
      · simp only [lookupSI, if_neg hk] at h
        simp only [List.cons_append, lookupSI, if_neg hk]
        exact ih h

/-- A name suffixed with `-<stamp>` differs from the bare name. -/
theorem suffixed_name_ne (s t : String) : s ++ "-" ++ t ≠ s := by
  intro he
  have hl : (s ++ "-" ++ t).length = s.length := congrArg String.length he
  rw [String.length_append, String.length_append] at hl
  have h1 : ("-" : String).length = 1 := rfl
  omega

/-- The service-update loop never touches the cluster's secret objects. -/
theorem updateLoop_secrets (env : DockerEnv) (now : Nat) (o n : String) :
    ∀ (l : List SwarmService) (ds : DockerState),
      ((updateLoop env now o n l ds).2).secrets = ds.secrets := by
  intro l
  induction l with
  | nil => intro ds; rfl
  | cons svc rest ih =>
      intro ds
      unfold updateLoop
      by_cases hany : svc.secretRefs.any (fun r => r.secretName = o) = true
      · by_cases hfail : env.serviceUpdateFails svc.id = true
        · simp [hany, hfail]
        · simp only [hany, if_pos, hfail]
          simp only [Bool.false_eq_true, if_false, if_true]
          rw [ih]
          rfl
      · simp only [Bool.not_eq_true] at hany
        simp [hany, ih]

/-- If some listed service that references the old name is set to fail,
the service-update loop fails. -/
theorem updateLoop_fails_of_failing_consumer (env : DockerEnv) (now : Nat)
    (o n : String) :
    ∀ (l : List SwarmService) (ds : DockerState),
      (∃ svc ∈ l, svc.secretRefs.any (fun r => r.secretName = o) = true ∧
        env.serviceUpdateFails svc.id = true) →
      ∃ e, (updateLoop env now o n l ds).1 = some e := by
  intro l
  induction l with
  | nil => intro ds h; obtain ⟨svc, hmem, _⟩ := h; simp at hmem
  | cons head rest ih =>
      intro ds h
      unfold updateLoop
      by_cases hany : head.secretRefs.any (fun r => r.secretName = o) = true
      · by_cases hfail : env.serviceUpdateFails head.id = true
        · exact ⟨"failed to update service " ++ head.name, by simp [hany, hfail]⟩
        · have hrest : ∃ svc ∈ rest,
              svc.secretRefs.any (fun r => r.secretName = o) = true ∧
              env.serviceUpdateFails svc.id = true := by
            obtain ⟨svc, hmem, h1, h2⟩ := h
            rcases List.mem_cons.mp hmem with rfl | hmem'
            · exact absurd h2 hfail
            · exact ⟨svc, hmem', h1, h2⟩
          obtain ⟨e, he⟩ := ih _ hrest
          refine ⟨e, ?_⟩
          simp only [hany, if_pos, hfail]
          simp only [Bool.false_eq_true, if_false, if_true]
          exact he
      · have hrest : ∃ svc ∈ rest,
            svc.secretRefs.any (fun r => r.secretName = o) = true ∧
            env.serviceUpdateFails svc.id = true := by
          obtain ⟨svc, hmem, h1, h2⟩ := h
          rcases List.mem_cons.mp hmem with rfl | hmem'
          · exact absurd h1 hany
          · exact ⟨svc, hmem', h1, h2⟩
        obtain ⟨e, he⟩ := ih _ hrest
        refine ⟨e, ?_⟩
        simp only [Bool.not_eq_true] at hany
        simp only [hany]
        simp only [Bool.false_eq_true, if_false]
        exact he

theorem rotateListed_id (now : Nat) (o n : String) (svc : SwarmService) :
    (rotateListed now o n svc).id = svc.id := by
  unfold rotateListed rotatedService
  by_cases hany : svc.secretRefs.any (fun r => r.secretName = o) = true <;>
    simp [hany]

/-- After the per-service rewrite no reference to the old name remains. -/
theorem rotateListed_no_old_ref (now : Nat) (o n : String) (hne : n ≠ o)
    (svc : SwarmService) :
    ∀ r ∈ (rotateListed now o n svc).secretRefs, r.secretName ≠ o := by
  unfold rotateListed rotatedService rewriteRefs
  by_cases hany : svc.secretRefs.any (fun r => r.secretName = o) = true
  · simp only [hany, if_pos]
    intro r hr
    simp only [List.mem_map] at hr
    obtain ⟨r0, hr0, hrw⟩ := hr
    by_cases h0 : r0.secretName = o
    · rw [if_pos h0] at hrw
      rw [← hrw]
      exact hne
    · rw [if_neg h0] at hrw
      rw [← hrw]
      exact h0
  · have hany' : svc.secretRefs.any (fun r => r.secretName = o) = false := by
      simpa using hany
    simp only [hany', Bool.false_eq_true, if_false]
    intro r hr
    have := List.any_eq_false.mp hany' r hr
    simpa using this

/-- A service that referenced the old name references the new name
after the rewrite. -/
theorem rotateListed_new_ref (now : Nat) (o n : String) (svc : SwarmService)
    (h : ∃ r ∈ svc.secretRefs, r.secretName = o) :
    ∃ r' ∈ (rotateListed now o n svc).secretRefs, r'.secretName = n := by
  obtain ⟨r, hr, hro⟩ := h
  have hany : svc.secretRefs.any (fun r => r.secretName = o) = true :=
    List.any_eq_true.mpr ⟨r, hr, by simp [hro]⟩
  unfold rotateListed rotatedService rewriteRefs
  simp only [hany, if_pos]
  refine ⟨{ file := r.file, secretID := n, secretName := n }, ?_, rfl⟩
  simp only [List.mem_map]
  exact ⟨r, hr, by rw [if_pos hro]⟩

/-- When every consuming service accepts its update, the loop succeeds
and the cluster holds exactly the rewritten service list. -/
theorem updateLoop_success (env : DockerEnv) (now : Nat) (o n : String) :
    ∀ (l pre : List SwarmService) (ds : DockerState),
      ds.services = pre ++ l →
      (∀ p ∈ pre, p.id ∉ l.map SwarmService.id) →
      (l.map SwarmService.id).Nodup →
      (∀ svc ∈ l, svc.secretRefs.any (fun r => r.secretName = o) = true →
        env.serviceUpdateFails svc.id = false) →
      updateLoop env now o n l ds =
        (none, { ds with services := pre ++ l.map (rotateListed now o n) }) := by
  intro l
  induction l with
  | nil =>
      intro pre ds hds _ _ _
      simp only [updateLoop, List.map_nil, List.append_nil]
      have hrec : { ds with services := pre } = ds := by
        cases ds
        simp only [List.append_nil] at hds
        simp [hds]
      rw [hrec]
  | cons head rest ih =>
      intro pre ds hds hpre hnodup hok
      have hid : (rotatedService now o n head).id = head.id := rfl
      rw [List.map_cons, List.nodup_cons] at hnodup
      obtain ⟨hheadrest, hnodupt⟩ := hnodup
      unfold updateLoop
      by_cases hany : head.secretRefs.any (fun r => r.secretName = o) = true
      · have hfail : env.serviceUpdateFails head.id = false :=
          hok head (List.mem_cons_self _ _) hany
        simp only [hany, if_pos, hfail, Bool.false_eq_true, if_false, if_true]
        have hds' : (replaceService ds head.id
              (rotatedService now o n head)).services
            = (pre ++ [rotatedService now o n head]) ++ rest := by
          unfold replaceService
          simp only
          rw [hds, List.map_append]
          have hpreid : ∀ p ∈ pre,
              (if p.id = head.id then rotatedService now o n head else p) = p := by
            intro p hp
            have : p.id ≠ head.id := by
              intro hcontra
              exact hpre p hp (by simp [hcontra])
            rw [if_neg this]
          have hrestid : ∀ p ∈ rest,
              (if p.id = head.id then rotatedService now o n head else p) = p := by
            intro p hp
            have : p.id ≠ head.id := by
              intro hcontra
              exact hheadrest (hcontra ▸ List.mem_map_of_mem SwarmService.id hp)
            rw [if_neg this]
          rw [List.map_congr_left hpreid]
          simp only [List.map_cons, if_pos rfl]
          rw [List.map_congr_left hrestid]
          simp
        have hres := ih (pre ++ [rotatedService now o n head])
          (replaceService ds head.id (rotatedService now o n head)) hds'
          (by
            intro p hp
            rcases List.mem_append.mp hp with hp | hp
            · intro hmem
              exact hpre p hp (by simp [hmem])
            · simp only [List.mem_singleton] at hp
              subst hp
              rw [hid]
              exact hheadrest)
          hnodupt
          (fun svc hsvc => hok svc (List.mem_cons_of_mem _ hsvc))
        rw [hres]
        have hsvceq : (pre ++ [rotatedService now o n head]) ++
            rest.map (rotateListed now o n)
            = pre ++ (head :: rest).map (rotateListed now o n) := by
          simp only [List.map_cons]
          rw [List.append_assoc]
          congr 1
          simp only [List.singleton_append]
          congr 1
          unfold rotateListed
          simp [hany]
        have hsec : (replaceService ds head.id
            (rotatedService now o n head)).secrets = ds.secrets := rfl
        cases ds
        simp only [replaceService] at hsvceq ⊢
        simp [hsvceq]
      · have hany' : head.secretRefs.any (fun r => r.secretName = o) = false := by
          simpa using hany
        simp only [hany', Bool.false_eq_true, if_false]
        have hres := ih (pre ++ [head]) ds
          (by rw [hds]; simp)
          (by
            intro p hp
            rcases List.mem_append.mp hp with hp | hp
            · intro hmem
              exact hpre p hp (by simp [hmem])
            · simp only [List.mem_singleton] at hp
              subst hp
              exact hheadrest)
          hnodupt
          (fun svc hsvc => hok svc (List.mem_cons_of_mem _ hsvc))
        rw [hres]
        have hsvceq : (pre ++ [head]) ++ rest.map (rotateListed now o n)
            = pre ++ (head :: rest).map (rotateListed now o n) := by
          simp only [List.map_cons]
          rw [List.append_assoc]
          congr 1
          simp only [List.singleton_append]
          congr 1
          unfold rotateListed
          simp [hany']
        rw [hsvceq]

/-- **C1.** When the service-update step of a rotation fails for some
service, the rotation is aborted: the newly created versioned secret is
deleted again (its removal succeeding), so the cluster's secret objects
are exactly as before the attempt — in particular the old secret object
is still in place — the failure is surfaced as an error, and the
tracker (fingerprint and timestamp included) is completely unchanged. -/
theorem rotation_compensates_on_service_update_failure
    (H : String → String) (backend : Backend) (env : DockerEnv) (now : Nat)
    (ds : DockerState) (tr : Tracker) (info : SecretInfo)
    (sd : List (String × VVal)) (v : VVal) (ex : DockerSecret)
    (hbk : backend info.vaultPath = .ok sd)
    (hfield : lookupAssoc (unwrapKV sd) info.vaultField = some v)
    (hlistS : env.listSecretsFails = false)
    (hfind : ds.secrets.find? (fun s => s.name = info.dockerSecretName)
      = some ex)
    (hcreate : env.createFails = false)
    (hlistSvc : env.listServicesFails = false)
    (hfailSvc : ∃ svc ∈ ds.services,
      svc.secretRefs.any (fun r => r.secretName = info.dockerSecretName)
        = true ∧ env.serviceUpdateFails svc.id = true)
    (hfresh : ∀ s ∈ ds.secrets, s.id ≠ env.freshId)
    (hremNew : env.removeFails env.freshId = false) :
    (∃ e, (rotateSecret H backend env now ds tr info).1 = some e) ∧
    (rotateSecret H backend env now ds tr info).2.1.secrets = ds.secrets ∧
    (rotateSecret H backend env now ds tr info).2.2 = tr := by
  set newName := info.dockerSecretName ++ "-" ++ toString now with hnew
  set newSecret : DockerSecret :=
    { id := env.freshId, name := newName, labels := ex.labels,
      data := fmtV v } with hnsec
  set ds1 : DockerState := { ds with secrets := ds.secrets ++ [newSecret] }
    with hds1
  obtain ⟨e, he⟩ := updateLoop_fails_of_failing_consumer env now
    info.dockerSecretName newName ds.services ds1 hfailSvc
  rcases hP : updateLoop env now info.dockerSecretName newName ds.services ds1
    with ⟨f, ds2⟩
  rw [hP] at he
  simp only at he
  subst he
  have hds2sec : ds2.secrets = ds.secrets ++ [newSecret] := by
    have := updateLoop_secrets env now info.dockerSecretName newName
      ds.services ds1
    rw [hP] at this
    exact this
  have hrot : rotateSecret H backend env now ds tr info
      = (some ("failed to update docker secret: " ++
          ("failed to update services to use new secret: " ++ e)),
         removeSecret env ds2 env.freshId, tr) := by
    unfold rotateSecret
    rw [hbk]
    simp only [hfield]
    unfold updateDockerSecret
    simp only [hlistS, Bool.false_eq_true, if_false, hfind, hcreate]
    unfold updateServicesSecretReference
    simp only [hlistSvc, Bool.false_eq_true, if_false]
    have : updateLoop env now info.dockerSecretName newName ds1.services ds1
        = (some e, ds2) := hP
    rw [this]
  refine ⟨⟨_, by rw [hrot]⟩, ?_, by rw [hrot]⟩
  rw [hrot]
  show (removeSecret env ds2 env.freshId).secrets = ds.secrets
  unfold removeSecret
  simp only [hremNew, Bool.false_eq_true, if_false]
  rw [hds2sec, List.filter_append]
  have h1 : ds.secrets.filter (fun s => s.id ≠ env.freshId) = ds.secrets :=
    List.filter_eq_self.mpr (fun s hs => by simpa using hfresh s hs)
  have h2 : [newSecret].filter (fun s => s.id ≠ env.freshId) = [] := by
    simp [hnsec]
  rw [h1, h2, List.append_nil]

/-- Witness for C1: one secret `db-pass` consumed by `svc-a`, whose
update fails; the attempt errors, the cluster's secret objects are
untouched, and the tracker is unchanged. -/
theorem rotation_compensates_witness :
    (∃ e, (rotateSecret id (fun _ => ReadResult.ok [("value", .vstr "new")])
        { listSecretsFails := false, createFails := false,
          listServicesFails := false,
          serviceUpdateFails := fun i => i == "svc1",
          removeFails := fun _ => false, freshId := "s2" } 5
        { secrets := [{ id := "s1", name := "db-pass", labels := [],
                        data := "old" }],
          services := [{ id := "svc1", name := "svc-a", version := 0,
                         labels := [],
                         secretRefs := [{ file := "db-pass", secretID := "s1",
                                          secretName := "db-pass" }] }] }
        [("db-pass", { dockerSecretName := "db-pass", vaultPath := "p",
                       vaultField := "value", serviceNames := ["svc-a"],
                       lastHash := "h-old", lastUpdated := 0 })]
        { dockerSecretName := "db-pass", vaultPath := "p",
          vaultField := "value", serviceNames := ["svc-a"],
          lastHash := "h-old", lastUpdated := 0 }).1 = some e) ∧
    (rotateSecret id (fun _ => ReadResult.ok [("value", .vstr "new")])
        { listSecretsFails := false, createFails := false,
          listServicesFails := false,
          serviceUpdateFails := fun i => i == "svc1",
          removeFails := fun _ => false, freshId := "s2" } 5
        { secrets := [{ id := "s1", name := "db-pass", labels := [],
                        data := "old" }],
          services := [{ id := "svc1", name := "svc-a", version := 0,
                         labels := [],
                         secretRefs := [{ file := "db-pass", secretID := "s1",
                                          secretName := "db-pass" }] }] }
        [("db-pass", { dockerSecretName := "db-pass", vaultPath := "p",
                       vaultField := "value", serviceNames := ["svc-a"],
                       lastHash := "h-old", lastUpdated := 0 })]
        { dockerSecretName := "db-pass", vaultPath := "p",
          vaultField := "value", serviceNames := ["svc-a"],
          lastHash := "h-old", lastUpdated := 0 }).2.1.secrets
      = [{ id := "s1", name := "db-pass", labels := [], data := "old" }] ∧
    (rotateSecret id (fun _ => ReadResult.ok [("value", .vstr "new")])
        { listSecretsFails := false, createFails := false,
          listServicesFails := false,
          serviceUpdateFails := fun i => i == "svc1",
          removeFails := fun _ => false, freshId := "s2" } 5
        { secrets := [{ id := "s1", name := "db-pass", labels := [],
                        data := "old" }],
          services := [{ id := "svc1", name := "svc-a", version := 0,
                         labels := [],
                         secretRefs := [{ file := "db-pass", secretID := "s1",
                                          secretName := "db-pass" }] }] }
        [("db-pass", { dockerSecretName := "db-pass", vaultPath := "p",
                       vaultField := "value", serviceNames := ["svc-a"],
                       lastHash := "h-old", lastUpdated := 0 })]
        { dockerSecretName := "db-pass", vaultPath := "p",
          vaultField := "value", serviceNames := ["svc-a"],
          lastHash := "h-old", lastUpdated := 0 }).2.2
      = [("db-pass", { dockerSecretName := "db-pass", vaultPath := "p",
                       vaultField := "value", serviceNames := ["svc-a"],
                       lastHash := "h-old", lastUpdated := 0 })] :=
  rotation_compensates_on_service_update_failure id
    (fun _ => ReadResult.ok [("value", .vstr "new")])
    { listSecretsFails := false, createFails := false,
      listServicesFails := false,
      serviceUpdateFails := fun i => i == "svc1",
      removeFails := fun _ => false, freshId := "s2" } 5
    { secrets := [{ id := "s1", name := "db-pass", labels := [],
                    data := "old" }],
      services := [{ id := "svc1", name := "svc-a", version := 0, labels := [],
                     secretRefs := [{ file := "db-pass", secretID := "s1",
                                      secretName := "db-pass" }] }] }
    [("db-pass", { dockerSecretName := "db-pass", vaultPath := "p",
                   vaultField := "value", serviceNames := ["svc-a"],
                   lastHash := "h-old", lastUpdated := 0 })]
    { dockerSecretName := "db-pass", vaultPath := "p", vaultField := "value",
      serviceNames := ["svc-a"], lastHash := "h-old", lastUpdated := 0 }
    [("value", .vstr "new")] (.vstr "new")
    { id := "s1", name := "db-pass", labels := [], data := "old" }
    rfl rfl rfl rfl rfl rfl
    ⟨{ id := "svc1", name := "svc-a", version := 0, labels := [],
       secretRefs := [{ file := "db-pass", secretID := "s1",
                        secretName := "db-pass" }] },
      by simp, rfl, rfl⟩
    (by intro s hs; simp at hs; subst hs; decide)
    rfl

theorem updateTrackerHash_lookup (H : String → String) (now : Nat)
    (tr : Tracker) (name value : String) (cur : SecretInfo)
    (h : lookupSI tr name = some cur) :
    lookupSI (updateTrackerHash H now tr name value) name
      = some { cur with lastHash := hashHex H value, lastUpdated := now } := by
  unfold updateTrackerHash
  rw [h]
  exact lookupSI_updateSI_self h _

/-- **C2.** A rotation in which every consuming service accepts its
update completes successfully: afterwards the tracker fingerprint is the
hash of the propagated value with a fresh timestamp, no service
references the old secret name any more, every former consumer now
references the versioned name, and — when the removal of the old object
succeeds — no secret object with the old name survives while exactly one
object carries the versioned name.  A failed removal of the old object
is non-fatal: the rotation still reports success (the error component is
`none` independently of `removeFails ex.id`) and only leaves the
superseded object in place. -/
theorem rotation_success_guarantees
    (H : String → String) (backend : Backend) (env : DockerEnv) (now : Nat)
    (ds : DockerState) (tr : Tracker) (info : SecretInfo)
    (sd : List (String × VVal)) (v : VVal) (ex : DockerSecret)
    (cur : SecretInfo)
    (hbk : backend info.vaultPath = .ok sd)
    (hfield : lookupAssoc (unwrapKV sd) info.vaultField = some v)
    (hlistS : env.listSecretsFails = false)
    (hfind : ds.secrets.find? (fun s => s.name = info.dockerSecretName)
      = some ex)
    (hcreate : env.createFails = false)
    (hlistSvc : env.listServicesFails = false)
    (hupd : ∀ svc ∈ ds.services, env.serviceUpdateFails svc.id = false)
    (hnodup : (ds.services.map SwarmService.id).Nodup)
    (htr : lookupSI tr info.dockerSecretName = some cur)
    (hfresh : ∀ s ∈ ds.secrets, s.id ≠ env.freshId)
    (hUnique : ∀ s ∈ ds.secrets, s.name = info.dockerSecretName →
      s.id = ex.id)
    (hNoNew : ∀ s ∈ ds.secrets,
      s.name ≠ info.dockerSecretName ++ "-" ++ toString now) :
    (rotateSecret H backend env now ds tr info).1 = none ∧
    lookupSI (rotateSecret H backend env now ds tr info).2.2
        info.dockerSecretName
      = some { cur with lastHash := hashHex H (fmtV v), lastUpdated := now } ∧
    (∀ svc ∈ (rotateSecret H backend env now ds tr info).2.1.services,
      ∀ r ∈ svc.secretRefs, r.secretName ≠ info.dockerSecretName) ∧
    (∀ svc ∈ ds.services,
      (∃ r ∈ svc.secretRefs, r.secretName = info.dockerSecretName) →
      ∃ svc' ∈ (rotateSecret H backend env now ds tr info).2.1.services,
        svc'.id = svc.id ∧
        ∃ r' ∈ svc'.secretRefs,
          r'.secretName = info.dockerSecretName ++ "-" ++ toString now) ∧
    (env.removeFails ex.id = false →
      ((rotateSecret H backend env now ds tr info).2.1.secrets.filter
          (fun s => s.name = info.dockerSecretName)).length = 0 ∧
      ((rotateSecret H backend env now ds tr info).2.1.secrets.filter
          (fun s => s.name = info.dockerSecretName ++ "-" ++ toString now)).length
        = 1) ∧
    (env.removeFails ex.id = true →
      ex ∈ (rotateSecret H backend env now ds tr info).2.1.secrets) := by
  have hexmem : ex ∈ ds.secrets := List.mem_of_find?_eq_some hfind
  have hexname : ex.name = info.dockerSecretName := by
    have := List.find?_some hfind
    simpa using this
  have hne : info.dockerSecretName ++ "-" ++ toString now
      ≠ info.dockerSecretName := suffixed_name_ne _ _
  set newName := info.dockerSecretName ++ "-" ++ toString now with hnew
  set newSecret : DockerSecret :=
    { id := env.freshId, name := newName, labels := ex.labels,
      data := fmtV v } with hnsec
  set ds1 : DockerState := { ds with secrets := ds.secrets ++ [newSecret] }
    with hds1
  have hLoop := updateLoop_success env now info.dockerSecretName newName
    ds.services [] ds1 (by simp [hds1]) (by simp) hnodup
    (fun svc hs _ => hupd svc hs)
  set ds2 : DockerState :=
    { ds1 with
        services := ds.services.map (rotateListed now info.dockerSecretName
          newName) } with hds2
  have hLoop' : updateLoop env now info.dockerSecretName newName
      ds.services ds1 = (none, ds2) := by
    rw [hLoop]
    simp [hds2]
  have hrot : rotateSecret H backend env now ds tr info
      = (none, removeSecret env ds2 ex.id,
         updateTrackerHash H now tr info.dockerSecretName (fmtV v)) := by
    unfold rotateSecret
    rw [hbk]
    simp only [hfield]
    unfold updateDockerSecret
    simp only [hlistS, Bool.false_eq_true, if_false, hfind, hcreate]
    unfold updateServicesSecretReference
    simp only [hlistSvc, Bool.false_eq_true, if_false]
    have : updateLoop env now info.dockerSecretName newName ds1.services ds1
        = (none, ds2) := hLoop'
    rw [this]
  have hsvc2 : (removeSecret env ds2 ex.id).services = ds.services.map
      (rotateListed now info.dockerSecretName newName) := by
    unfold removeSecret
    by_cases hrem : env.removeFails ex.id = true <;> simp [hrem, hds2]
  refine ⟨by rw [hrot], ?_, ?_, ?_, ?_, ?_⟩
  · rw [hrot]
    exact updateTrackerHash_lookup H now tr info.dockerSecretName (fmtV v)
      cur htr
  · rw [hrot]
    intro svc hsvc r hr
    rw [hsvc2] at hsvc
    obtain ⟨s0, _, rfl⟩ := List.mem_map.mp hsvc
    exact rotateListed_no_old_ref now info.dockerSecretName newName hne s0 r hr
  · rw [hrot]
    intro svc hsvc href
    refine ⟨rotateListed now info.dockerSecretName newName svc, ?_, ?_, ?_⟩
    · rw [hsvc2]
      exact List.mem_map_of_mem _ hsvc
    · exact rotateListed_id now info.dockerSecretName newName svc
    · exact rotateListed_new_ref now info.dockerSecretName newName svc href
  · intro hrem
    rw [hrot]
    show ((removeSecret env ds2 ex.id).secrets.filter
        (fun s => s.name = info.dockerSecretName)).length = 0 ∧
      ((removeSecret env ds2 ex.id).secrets.filter
        (fun s => s.name = newName)).length = 1
    have hfid : env.freshId ≠ ex.id := fun h => hfresh ex hexmem h.symm
    have hsec : (removeSecret env ds2 ex.id).secrets
        = ds.secrets.filter (fun s => s.id ≠ ex.id) ++ [newSecret] := by
      unfold removeSecret
      simp only [hrem, Bool.false_eq_true, if_false, hds2, hds1]
      simp only [List.filter_append]
      congr 1
      simp [hnsec, hfid]
    rw [hsec]
    constructor
    · rw [List.length_eq_zero]
      rw [List.filter_eq_nil_iff]
      intro a ha
      rcases List.mem_append.mp ha with h1 | h2
      · obtain ⟨hmem, hid⟩ := List.mem_filter.mp h1
        simp only [decide_eq_true_eq] at hid ⊢
        intro hname
        exact hid (hUnique a hmem hname)
      · simp only [List.mem_singleton] at h2
        subst h2
        simp only [decide_eq_true_eq]
        exact hne
    · rw [List.filter_append]
      have hz : (ds.secrets.filter (fun s => s.id ≠ ex.id)).filter
          (fun s => s.name = newName) = [] := by
        rw [List.filter_eq_nil_iff]
        intro a ha
        obtain ⟨hmem, _⟩ := List.mem_filter.mp ha
        simp only [decide_eq_true_eq]
        exact hNoNew a hmem
      rw [hz]
      simp [hnsec]
  · intro hrem
    rw [hrot]
    show ex ∈ (removeSecret env ds2 ex.id).secrets
    unfold removeSecret
    simp only [hrem, if_true, hds2, hds1]
    exact List.mem_append_left _ hexmem

/-- Witness for C2: the value of `db-pass` changes to `"new"`, `svc-a`
accepts its update; the rotation succeeds, the tracker fingerprint is
the hash of `"new"` with timestamp 5, the old object is gone and
exactly one object carries the versioned name. -/
theorem rotation_success_witness :
    (rotateSecret id (fun _ => ReadResult.ok [("value", .vstr "new")])
        { listSecretsFails := false, createFails := false,
          listServicesFails := false,
          serviceUpdateFails := fun _ => false,
          removeFails := fun _ => false, freshId := "s2" } 5
        { secrets := [{ id := "s1", name := "db-pass", labels := [],
                        data := "old" }],
          services := [{ id := "svc1", name := "svc-a", version := 0,
                         labels := [],
                         secretRefs := [{ file := "db-pass", secretID := "s1",
                                          secretName := "db-pass" }] }] }
        [("db-pass", { dockerSecretName := "db-pass", vaultPath := "p",
                       vaultField := "value", serviceNames := ["svc-a"],
                       lastHash := "old", lastUpdated := 0 })]
        { dockerSecretName := "db-pass", vaultPath := "p",
          vaultField := "value", serviceNames := ["svc-a"],
          lastHash := "old", lastUpdated := 0 }).1 = none ∧
    lookupSI (rotateSecret id (fun _ => ReadResult.ok [("value", .vstr "new")])
        { listSecretsFails := false, createFails := false,
          listServicesFails := false,
          serviceUpdateFails := fun _ => false,
          removeFails := fun _ => false, freshId := "s2" } 5
        { secrets := [{ id := "s1", name := "db-pass", labels := [],
                        data := "old" }],
          services := [{ id := "svc1", name := "svc-a", version := 0,
                         labels := [],
                         secretRefs := [{ file := "db-pass", secretID := "s1",
                                          secretName := "db-pass" }] }] }
        [("db-pass", { dockerSecretName := "db-pass", vaultPath := "p",
                       vaultField := "value", serviceNames := ["svc-a"],
                       lastHash := "old", lastUpdated := 0 })]
        { dockerSecretName := "db-pass", vaultPath := "p",
          vaultField := "value", serviceNames := ["svc-a"],
          lastHash := "old", lastUpdated := 0 }).2.2 "db-pass"
      = some { dockerSecretName := "db-pass", vaultPath := "p",
               vaultField := "value", serviceNames := ["svc-a"],
               lastHash := hashHex id "new", lastUpdated := 5 } ∧
    ((rotateSecret id (fun _ => ReadResult.ok [("value", .vstr "new")])
        { listSecretsFails := false, createFails := false,
          listServicesFails := false,
          serviceUpdateFails := fun _ => false,
          removeFails := fun _ => false, freshId := "s2" } 5
        { secrets := [{ id := "s1", name := "db-pass", labels := [],
                        data := "old" }],
          services := [{ id := "svc1", name := "svc-a", version := 0,
                         labels := [],
                         secretRefs := [{ file := "db-pass", secretID := "s1",
                                          secretName := "db-pass" }] }] }
        [("db-pass", { dockerSecretName := "db-pass", vaultPath := "p",
                       vaultField := "value", serviceNames := ["svc-a"],
                       lastHash := "old", lastUpdated := 0 })]
        { dockerSecretName := "db-pass", vaultPath := "p",
          vaultField := "value", serviceNames := ["svc-a"],
          lastHash := "old", lastUpdated := 0 }).2.1.secrets.filter
        (fun s => s.name = "db-pass")).length = 0 ∧
    ((rotateSecret id (fun _ => ReadResult.ok [("value", .vstr "new")])
        { listSecretsFails := false, createFails := false,
          listServicesFails := false,
          serviceUpdateFails := fun _ => false,
          removeFails := fun _ => false, freshId := "s2" } 5
        { secrets := [{ id := "s1", name := "db-pass", labels := [],
                        data := "old" }],
          services := [{ id := "svc1", name := "svc-a", version := 0,
                         labels := [],
                         secretRefs := [{ file := "db-pass", secretID := "s1",
                                          secretName := "db-pass" }] }] }
        [("db-pass", { dockerSecretName := "db-pass", vaultPath := "p",
                       vaultField := "value", serviceNames := ["svc-a"],
                       lastHash := "old", lastUpdated := 0 })]
        { dockerSecretName := "db-pass", vaultPath := "p",
          vaultField := "value", serviceNames := ["svc-a"],
          lastHash := "old", lastUpdated := 0 }).2.1.secrets.filter
        (fun s => s.name = "db-pass" ++ "-" ++ toString 5)).length = 1 := by
  have h := rotation_success_guarantees id
    (fun _ => ReadResult.ok [("value", .vstr "new")])
    { listSecretsFails := false, createFails := false,
      listServicesFails := false,
      serviceUpdateFails := fun _ => false,
      removeFails := fun _ => false, freshId := "s2" } 5
    { secrets := [{ id := "s1", name := "db-pass", labels := [],
                    data := "old" }],
      services := [{ id := "svc1", name := "svc-a", version := 0, labels := [],
                     secretRefs := [{ file := "db-pass", secretID := "s1",
                                      secretName := "db-pass" }] }] }
    [("db-pass", { dockerSecretName := "db-pass", vaultPath := "p",
                   vaultField := "value", serviceNames := ["svc-a"],
                   lastHash := "old", lastUpdated := 0 })]
    { dockerSecretName := "db-pass", vaultPath := "p", vaultField := "value",
      serviceNames := ["svc-a"], lastHash := "old", lastUpdated := 0 }
    [("value", .vstr "new")] (.vstr "new")
    { id := "s1", name := "db-pass", labels := [], data := "old" }
    { dockerSecretName := "db-pass", vaultPath := "p", vaultField := "value",
      serviceNames := ["svc-a"], lastHash := "old", lastUpdated := 0 }
    rfl rfl rfl rfl rfl rfl (fun _ _ => rfl) (by simp) rfl
    (by intro s hs; simp at hs; subst hs; decide)
    (by intro s hs _; simp at hs; subst hs; rfl)
    (by intro s hs; simp at hs; subst hs; decide)
  exact ⟨h.1, h.2.1, (h.2.2.2.2.1 rfl).1, (h.2.2.2.2.1 rfl).2⟩

theorem consumersPreserved_refl (tr : Tracker) : consumersPreserved tr tr :=
  fun _ info h => ⟨info, h, fun _ hs => hs⟩

theorem consumersPreserved_trans {a b c : Tracker}
    (h1 : consumersPreserved a b) (h2 : consumersPreserved b c) :
    consumersPreserved a c := by
  intro name info h
  obtain ⟨i', h', hs⟩ := h1 name info h
  obtain ⟨i'', h'', hs'⟩ := h2 name i' h'
  exact ⟨i'', h'', fun s hsm => hs' s (hs s hsm)⟩

theorem trackSecret_consumersPreserved (H : String → String) (now : Nat)
    (req : SecretRequest) (vaultPath value : String) (tr : Tracker) :
    consumersPreserved tr (trackSecret H now req vaultPath value tr) := by
  intro name info h
  by_cases hn : name = req.secretName
  · subst hn
    obtain ⟨i, hlk, _, _, _, hex, _⟩ :=
      trackSecret_lookup_self H now req vaultPath value tr
    exact ⟨i, hlk, (hex info h).1⟩
  · refine ⟨info, ?_, fun _ hs => hs⟩
    unfold trackSecret
    rcases hfirst : lookupSI tr req.secretName with _ | ⟨ex⟩
    · simp only
      exact lookupSI_append_left h _
    · simp only
      rw [lookupSI_updateSI_ne hn]
      exact h

theorem updateTrackerHash_consumersPreserved (H : String → String)
    (now : Nat) (tr : Tracker) (name value : String) :
    consumersPreserved tr (updateTrackerHash H now tr name value) := by
  intro nm info h
  unfold updateTrackerHash
  rcases hc : lookupSI tr name with _ | ⟨cur⟩
  · exact ⟨info, h, fun _ hs => hs⟩
  · by_cases hn : nm = name
    · subst hn
      rw [h] at hc
      cases hc
      exact ⟨_, lookupSI_updateSI_self h _, fun _ hs => hs⟩
    · refine ⟨info, ?_, fun _ hs => hs⟩
      rw [lookupSI_updateSI_ne hn]
      exact h

theorem rotateSecret_consumersPreserved (H : String → String)
    (backend : Backend) (env : DockerEnv) (now : Nat) (ds : DockerState)
    (tr : Tracker) (info : SecretInfo) :
    consumersPreserved tr (rotateSecret H backend env now ds tr info).2.2 := by
  unfold rotateSecret
  cases backend info.vaultPath with
  | err e => exact consumersPreserved_refl tr
  | notFound => exact consumersPreserved_refl tr
  | ok sd =>
      dsimp only
      cases hlf : lookupAssoc (unwrapKV sd) info.vaultField with
      | none => exact consumersPreserved_refl tr
      | some v =>
          dsimp only
          rcases h : updateDockerSecret env now ds info.dockerSecretName
            (fmtV v) with ⟨f, ds'⟩
          rcases f with _ | e
          · exact updateTrackerHash_consumersPreserved H now tr
              info.dockerSecretName (fmtV v)
          · exact consumersPreserved_refl tr

theorem processEntry_consumersPreserved (H : String → String)
    (backend : Backend) (env : DockerEnv) (now : Nat)
    (acc : DockerState × Tracker) (info : SecretInfo) :
    consumersPreserved acc.2 (processEntry H backend env now acc info).2 := by
  unfold processEntry
  by_cases hch : hasSecretChanged H backend info = true
  · simp only [hch, if_true]
    exact rotateSecret_consumersPreserved H backend env now acc.1 acc.2 info
  · have hch' : hasSecretChanged H backend info = false := by simpa using hch
    simp only [hch', Bool.false_eq_true, if_false]
    exact consumersPreserved_refl _

theorem runCycleEntries_consumersPreserved (H : String → String)
    (backend : Backend) (env : DockerEnv) (now : Nat) :
    ∀ (entries : List (String × SecretInfo)) (acc : DockerState × Tracker),
      consumersPreserved acc.2
        (runCycleEntries H backend env now entries acc).2 := by
  intro entries
  induction entries with
  | nil => intro acc; exact consumersPreserved_refl _
  | cons kv rest ih =>
      intro acc
      unfold runCycleEntries
      simp only [List.foldl_cons]
      exact consumersPreserved_trans
        (processEntry_consumersPreserved H backend env now acc kv.2)
        (ih (processEntry H backend env now acc kv.2))

/-- **C7.** The consumer service set of every tracked record never
shrinks: `trackSecret`, a rotation attempt, and a whole scheduler cycle
each leave every previously tracked record in place with all of its
service names retained. -/
theorem consumer_sets_never_shrink :
    (∀ (H : String → String) (now : Nat) (req : SecretRequest)
        (vaultPath value : String) (tr : Tracker),
      consumersPreserved tr (trackSecret H now req vaultPath value tr)) ∧
    (∀ (H : String → String) (backend : Backend) (env : DockerEnv)
        (now : Nat) (ds : DockerState) (tr : Tracker) (info : SecretInfo),
      consumersPreserved tr
        (rotateSecret H backend env now ds tr info).2.2) ∧
    (∀ (H : String → String) (backend : Backend) (env : DockerEnv)
        (now : Nat) (ds : DockerState) (tr : Tracker),
      consumersPreserved tr
        (checkForSecretChanges H backend env now ds tr).2) :=
  ⟨trackSecret_consumersPreserved, rotateSecret_consumersPreserved,
   fun H backend env now ds tr =>
     runCycleEntries_consumersPreserved H backend env now tr (ds, tr)⟩

/-- Witness for C7: a second service requesting `db-pass` does not
evict the first from the consumer set. -/
theorem consumer_sets_never_shrink_witness :
    ∃ info', lookupSI (trackSecret id 3
        { secretName := "db-pass", serviceName := "svc-b",
          secretLabels := [] } "p" "v"
        [("db-pass", { dockerSecretName := "db-pass", vaultPath := "p",
                       vaultField := "value", serviceNames := ["svc-a"],
                       lastHash := "h", lastUpdated := 0 })]) "db-pass"
        = some info' ∧
      ∀ s ∈ ({ dockerSecretName := "db-pass", vaultPath := "p",
               vaultField := "value", serviceNames := ["svc-a"],
               lastHash := "h", lastUpdated := 0 } : SecretInfo).serviceNames,
        s ∈ info'.serviceNames :=
  consumer_sets_never_shrink.1 id 3
    { secretName := "db-pass", serviceName := "svc-b", secretLabels := [] }
    "p" "v"
    [("db-pass", { dockerSecretName := "db-pass", vaultPath := "p",
                   vaultField := "value", serviceNames := ["svc-a"],
                   lastHash := "h", lastUpdated := 0 })]
    "db-pass"
    { dockerSecretName := "db-pass", vaultPath := "p", vaultField := "value",
      serviceNames := ["svc-a"], lastHash := "h", lastUpdated := 0 }
    rfl

/-- **C8.** Per-entry failures are isolated within one scheduler cycle:
a backend read error, a missing path, or a missing tracked field makes
the change check report "unchanged", and an unchanged entry leaves the
cycle state untouched; the cycle recursion processes the remaining
snapshot entries from whatever state the current entry produced, and a
failed rotation of one entry merely hands its resulting state to the
rest of the cycle instead of aborting it. -/
theorem cycle_isolates_entry_failures :
    (∀ (H : String → String) (backend : Backend) (info : SecretInfo)
        (e : String), backend info.vaultPath = .err e →
      hasSecretChanged H backend info = false) ∧
    (∀ (H : String → String) (backend : Backend) (info : SecretInfo),
      backend info.vaultPath = .notFound →
      hasSecretChanged H backend info = false) ∧
    (∀ (H : String → String) (backend : Backend) (info : SecretInfo)
        (sd : List (String × VVal)), backend info.vaultPath = .ok sd →
      lookupAssoc (unwrapKV sd) info.vaultField = none →
      hasSecretChanged H backend info = false) ∧
    (∀ (H : String → String) (backend : Backend) (env : DockerEnv)
        (now : Nat) (acc : DockerState × Tracker) (info : SecretInfo),
      hasSecretChanged H backend info = false →
      processEntry H backend env now acc info = acc) ∧
    (∀ (H : String → String) (backend : Backend) (env : DockerEnv)
        (now : Nat) (k : String) (info : SecretInfo)
        (rest : List (String × SecretInfo)) (acc : DockerState × Tracker),
      runCycleEntries H backend env now ((k, info) :: rest) acc
        = runCycleEntries H backend env now rest
            (processEntry H backend env now acc info)) ∧
    (∀ (H : String → String) (backend : Backend) (env : DockerEnv)
        (now : Nat) (acc : DockerState × Tracker) (info : SecretInfo)
        (e : String) (ds' : DockerState) (tr' : Tracker),
      hasSecretChanged H backend info = true →
      rotateSecret H backend env now acc.1 acc.2 info = (some e, ds', tr') →
      processEntry H backend env now acc info = (ds', tr')) := by
  refine ⟨?_, ?_, ?_, ?_, ?_, ?_⟩
  · intro H backend info e h
    unfold hasSecretChanged
    rw [h]
  · intro H backend info h
    unfold hasSecretChanged
    rw [h]
  · intro H backend info sd hbk hmiss
    unfold hasSecretChanged
    rw [hbk]
    simp only [hmiss]
  · intro H backend env now acc info h
    unfold processEntry
    simp [h]
  · intro H backend env now k info rest acc
    rfl
  · intro H backend env now acc info e ds' tr' hch hrot
    unfold processEntry
    simp only [hch, if_true, hrot]

/-- Witness for C8: an entry whose backend read fails is reported
unchanged and leaves the cycle state exactly as it was. -/
theorem cycle_isolates_entry_failures_witness :
    hasSecretChanged id (fun _ => ReadResult.err "boom")
      { dockerSecretName := "db-pass", vaultPath := "p",
        vaultField := "value", serviceNames := ["svc-a"],
        lastHash := "h", lastUpdated := 0 } = false ∧
    processEntry id (fun _ => ReadResult.err "boom")
      { listSecretsFails := false, createFails := false,
        listServicesFails := false, serviceUpdateFails := fun _ => false,
        removeFails := fun _ => false, freshId := "s2" } 0
      ({ secrets := [], services := [] }, [])
      { dockerSecretName := "db-pass", vaultPath := "p",
        vaultField := "value", serviceNames := ["svc-a"],
        lastHash := "h", lastUpdated := 0 }
      = ({ secrets := [], services := [] }, []) := by
  have h1 := cycle_isolates_entry_failures.1 id
    (fun _ => ReadResult.err "boom")
    { dockerSecretName := "db-pass", vaultPath := "p", vaultField := "value",
      serviceNames := ["svc-a"], lastHash := "h", lastUpdated := 0 }
    "boom" rfl
  refine ⟨h1, ?_⟩
  exact cycle_isolates_entry_failures.2.2.2.1 id
    (fun _ => ReadResult.err "boom")
    { listSecretsFails := false, createFails := false,
      listServicesFails := false, serviceUpdateFails := fun _ => false,
      removeFails := fun _ => false, freshId := "s2" } 0
    ({ secrets := [], services := [] }, [])
    { dockerSecretName := "db-pass", vaultPath := "p", vaultField := "value",
      serviceNames := ["svc-a"], lastHash := "h", lastUpdated := 0 } h1

end SwarmVault
